import Mathlib

/-!
Verification development for the Paludarium firmware (v2.1 source).

The definitions below are a shallow embedding of the firmware source:
the data structures (`TIME`, `LAMP`, `BUSE`, `EXTRAS`), the periodic task
bodies (`lamp_task_step`, `time_task` tick, `buse_task_step`,
`input_task` button machine), the menu state machine for the multi-event
devices (`extra_menu`, `hourSelection`), and the EEPROM persistence layer
(`saveToEEPROM`, `restoreFromEEPROM`, boot marker check).  Machine bytes
(uint8_t) are modelled as `Nat` with an explicit `% 256` wherever the
source can overflow; C integer promotion in comparisons is modelled with
`Int` casts where the source compares promoted values.
-/

namespace Palud

/-- struct TIME { uint8_t hours; uint8_t minutes; } -/
structure TIME where
  hours : Nat
  minutes : Nat
deriving DecidableEq, Repr

/-- struct LAMP { TIME onH; TIME offH; uint8_t active; } -/
structure LAMP where
  onH : TIME
  offH : TIME
  active : Nat
deriving DecidableEq, Repr

/-- struct BUSE { uint8_t tOn; TIME startH; TIME stopH; uint8_t active; } -/
structure BUSE where
  tOn : Nat
  startH : TIME
  stopH : TIME
  active : Nat
deriving DecidableEq, Repr

/-- struct EXTRAS { uint8_t nbr; uint8_t tOn; TIME times[10]; uint8_t active; } -/
structure EXTRAS where
  nbr : Nat
  tOn : Nat
  times : List TIME
  active : Nat
deriving DecidableEq, Repr

/-- The aggregate configuration: lamps[3], buse, brume, bulles. -/
structure Config where
  lamps : List LAMP
  buse : BUSE
  brume : EXTRAS
  bulles : EXTRAS
deriving DecidableEq, Repr

def zeroTIME : TIME := ⟨0, 0⟩

def zeroLAMP : LAMP := ⟨⟨0, 0⟩, ⟨0, 0⟩, 0⟩

def zeroEXTRAS : EXTRAS := ⟨0, 0, List.replicate 10 ⟨0, 0⟩, 0⟩

/-- enum btn_press values. -/
def p_none : Nat := 0

def p_bt1_s : Nat := 1

def p_bt1_l : Nat := 2

def p_bt1_r : Nat := 3

def p_bt2_s : Nat := 4

def p_bt2_l : Nat := 5

def p_bt2_r : Nat := 6

/-- enum menus values. -/
def m_off : Nat := 0

def m_setup : Nat := 1

/-!  ## Lamp evaluator (lamp_task body, one lamp, one cycle)

The source, for an active lamp, writes the pin low (= energized) in three
branches and writes it high only in the sub-branch of the third one; when
no branch fires the pin keeps its previous level.  `pinOn = true` means
the lamp output is energized. -/

def lamp_task_step (now : TIME) (l : LAMP) (pinOn : Bool) : Bool :=
  if l.active ≠ 0 then
    if now.hours = l.onH.hours ∧ l.onH.minutes ≥ now.minutes then true
    else if now.hours > l.onH.hours ∧ now.hours < l.offH.hours then true
    else if now.hours = l.offH.hours then
      if now.minutes < l.offH.minutes then true else false
    else pinOn
  else false

/-- The activation rule exactly as the claim states it (claim-side
definition, for comparison with the code-side `lamp_task_step`):
active iff enabled and (hour = onHour and minute ≥ onMinute) or
(onHour < hour < offHour) or (hour = offHour and minute < offMinute). -/
def lampClaimActive (now : TIME) (l : LAMP) : Bool :=
  l.active ≠ 0 ∧
    ((now.hours = l.onH.hours ∧ now.minutes ≥ l.onH.minutes) ∨
      (l.onH.hours < now.hours ∧ now.hours < l.offH.hours) ∨
      (now.hours = l.offH.hours ∧ now.minutes < l.offH.minutes))

/-!  ## Clock Keeper (time_task body, one tick) -/

/-- The increment part of one time_task tick: when sec reaches 59 the
minute (and possibly hour) advances with wraparound, otherwise only the
seconds counter advances. -/
def timeInc (sec : Nat) (t : TIME) : Nat × TIME :=
  if sec ≥ 59 then
    (0,
      if t.minutes = 59 then
        ⟨if t.hours = 23 then 0 else t.hours + 1, 0⟩
      else ⟨t.hours, t.minutes + 1⟩)
  else (sec + 1, t)

/-- The RTC reconciliation part of one tick.  The source compares
uint8_t values that C promotes to int, so the subtractions are signed:
the minute is overwritten by the RTC minute exactly when the two differ
by more than one. -/
def timeCorrect (t : TIME) (rtcMin : Nat) : TIME :=
  if rtcMin ≠ t.minutes ∧
      ((rtcMin : Int) - (t.minutes : Int) > 1 ∨ (t.minutes : Int) - (rtcMin : Int) > 1) then
    { t with minutes := rtcMin }
  else t

/-- One full time_task tick: increment, then RTC reconciliation. -/
def timeTick (sec : Nat) (t : TIME) (rtcMin : Nat) : Nat × TIME :=
  ((timeInc sec t).1, timeCorrect (timeInc sec t).2 rtcMin)

/-!  ## Buse (irrigation pump) task, one cycle

The task keeps a global once-latch `buseFlag` and declares a LOCAL
variable `buseflag` (lower-case f) in its body; the clearing branch
assigns the local one, so it is modelled as a separate dead field.
The returned Bool is true when this cycle fires the pump pulse
(pin low, blocking sleep of tOn seconds, pin high). -/

structure BuseTaskState where
  buseFlag : Nat
  buseflag : Nat
deriving DecidableEq, Repr

def buse_task_step (now : TIME) (b : BUSE) (s : BuseTaskState) : BuseTaskState × Bool :=
  if b.startH.hours ≤ now.hours ∧ now.hours ≤ b.stopH.hours ∧ b.active ≠ 0 ∧ s.buseFlag = 0 then
    if now.minutes = b.startH.minutes then ({ s with buseFlag := 1 }, true)
    else (s, false)
  else
    ({ s with buseflag := if now.minutes ≥ b.startH.minutes + b.tOn / 60 then 0 else s.buseflag },
      false)

/-- C1: the lamp evaluator diverges from the claimed half-open window
rule.  For an active lamp with onTime 08:30 and offTime 22:00 the code
drives the output ON at 08:15 (the comparison onH.minutes >= now.minutes
is inverted) although the claimed rule says OFF there, and at 08:45 it
leaves a previously-off output off (no branch fires) although the
claimed rule says ON. -/
theorem lamp_on_window_bug :
    lamp_task_step ⟨8, 15⟩ ⟨⟨8, 30⟩, ⟨22, 0⟩, 1⟩ false = true ∧
      lampClaimActive ⟨8, 15⟩ ⟨⟨8, 30⟩, ⟨22, 0⟩, 1⟩ = false ∧
      lamp_task_step ⟨8, 45⟩ ⟨⟨8, 30⟩, ⟨22, 0⟩, 1⟩ false = false ∧
      lampClaimActive ⟨8, 45⟩ ⟨⟨8, 30⟩, ⟨22, 0⟩, 1⟩ = true := by
  decide

/-- C3 counterexample: the claim says a discrepancy of exactly 1 is
corrected (local 10, RTC 11 becomes 11) and a larger one is left alone
(local 10, RTC 40 stays 10); the code does the opposite on both inputs. -/
theorem time_task_counterexample :
    (timeTick 0 ⟨12, 10⟩ 11).2.minutes = 10 ∧ (timeTick 0 ⟨12, 10⟩ 40).2.minutes = 40 := by
  decide

/-- Helper: the reconciliation overwrites the minute exactly when the
distance between local and RTC minute is at least 2. -/
theorem timeCorrect_eq (t : TIME) (rtc : Nat) :
    timeCorrect t rtc =
      if 2 ≤ max rtc t.minutes - min rtc t.minutes then { t with minutes := rtc } else t := by
  unfold timeCorrect
  rcases t with ⟨h, m⟩
  simp only
  split_ifs with h1 h2 h3 <;> first
    | rfl
    | (exfalso; omega)

/-- C3 amended: at every tick, after the increment, the local minute is
overwritten by the RTC minute exactly when the two differ by at least 2;
a discrepancy of exactly 1 (and of 0) is left uncorrected. -/
theorem time_task_amended (sec : Nat) (t : TIME) (rtc : Nat) :
    (timeTick sec t rtc).2 =
      if 2 ≤ max rtc (timeInc sec t).2.minutes - min rtc (timeInc sec t).2.minutes then
        { (timeInc sec t).2 with minutes := rtc }
      else (timeInc sec t).2 := by
  unfold timeTick
  exact timeCorrect_eq (timeInc sec t).2 rtc

/-- C5: once the global once-latch buseFlag is set, no later cycle ever
fires the pump again and the latch never clears, whatever the current
time: the clearing branch of the source assigns the shadowing local
variable buseflag instead of the global buseFlag. -/
theorem buse_latch_stuck (now : TIME) (b : BUSE) (s : BuseTaskState) (h : s.buseFlag ≠ 0) :
    (buse_task_step now b s).2 = false ∧ (buse_task_step now b s).1.buseFlag = s.buseFlag := by
  unfold buse_task_step
  split_ifs with h1 h2 <;> simp_all

/-- C5 witness: the day after a firing (latch at 1), at 08:00 inside the
configured window of an enabled pump, the task does not fire and the
latch stays set. -/
theorem buse_latch_stuck_witness :
    (buse_task_step ⟨8, 0⟩ ⟨5, ⟨8, 0⟩, ⟨21, 0⟩, 1⟩ ⟨1, 0⟩).2 = false ∧
      (buse_task_step ⟨8, 0⟩ ⟨5, ⟨8, 0⟩, ⟨21, 0⟩, 1⟩ ⟨1, 0⟩).1.buseFlag = 1 :=
  buse_latch_stuck ⟨8, 0⟩ ⟨5, ⟨8, 0⟩, ⟨21, 0⟩, 1⟩ ⟨1, 0⟩ (by decide)

/-!  ## Input Classifier (input_task body, one button, one 50 ms poll)

Both buttons run the identical logic on their own BUTTON record; the
emitted event goes to the shared press slot, modelled here as the
`Option BEvent` component of the step result. -/

/-- Per-button event kinds (the bt1/bt2 distinction is just which slot
value is written). -/
inductive BEvent where
  | short
  | long
  | rep
deriving DecidableEq, Repr

/-- struct BUTTON { uint8_t val : 4; uint8_t mode : 4; uint8_t time; } -/
structure BUTTON where
  val : Nat
  mode : Nat
  time : Nat
deriving DecidableEq, Repr

/-- One poll of input_task for one button.  pinDown is the active-low pin
read as pressed.  The time counter is a uint8_t, hence the % 256. -/
def buttonStep (b : BUTTON) (pinDown : Bool) : BUTTON × Option BEvent :=
  if b.val = 0 then
    (if pinDown then { b with val := 1 } else b, none)
  else if ¬ pinDown then
    (⟨0, 0, 0⟩,
      if b.mode = 0 then some BEvent.short
      else if b.mode = 1 then some BEvent.long
      else none)
  else if b.mode = 0 then
    if b.time = 8 then ({ b with mode := 1, time := (b.time + 1) % 256 }, none)
    else ({ b with time := (b.time + 1) % 256 }, none)
  else if b.mode = 1 then
    if b.time = 20 then ({ b with mode := 3, time := (b.time + 1) % 256 }, none)
    else ({ b with time := (b.time + 1) % 256 }, none)
  else
    if b.time ≥ 5 then ({ b with time := 1 }, some BEvent.rep)
    else ({ b with time := (b.time + 1) % 256 }, none)

/-- State of a button after the press has been latched (val = 1, counter
0) and then n polls with the pin held down. -/
def runHeld : Nat → BUTTON
  | 0 => ⟨1, 0, 0⟩
  | n + 1 => (buttonStep (runHeld n) true).1

/-- Closed form of `runHeld`. -/
def heldState (n : Nat) : BUTTON :=
  if n ≤ 8 then ⟨1, 0, n⟩
  else if n ≤ 20 then ⟨1, 1, n⟩
  else if n = 21 then ⟨1, 3, 21⟩
  else ⟨1, 3, (n - 22) % 5 + 1⟩

theorem heldState_low (n : Nat) (h : n ≤ 8) : heldState n = ⟨1, 0, n⟩ := by
  unfold heldState
  rw [if_pos h]

theorem heldState_mid (n : Nat) (h1 : 9 ≤ n) (h2 : n ≤ 20) : heldState n = ⟨1, 1, n⟩ := by
  unfold heldState
  rw [if_neg (by omega), if_pos h2]

theorem heldState_high (n : Nat) (h : 22 ≤ n) : heldState n = ⟨1, 3, (n - 22) % 5 + 1⟩ := by
  unfold heldState
  rw [if_neg (by omega), if_neg (by omega), if_neg (by omega)]

theorem buttonStep_heldState (n : Nat) : (buttonStep (heldState n) true).1 = heldState (n + 1) := by
  rcases Nat.lt_or_ge n 8 with h | h
  · rw [heldState_low n (by omega), heldState_low (n + 1) (by omega)]
    simp [buttonStep, show n ≠ 8 by omega, Nat.mod_eq_of_lt (show n + 1 < 256 by omega)]
  · rcases Nat.lt_or_ge n 9 with h9 | h9
    · have hn : n = 8 := by omega
      subst hn
      decide
    · rcases Nat.lt_or_ge n 20 with h20 | h20
      · rw [heldState_mid n (by omega) (by omega), heldState_mid (n + 1) (by omega) (by omega)]
        simp [buttonStep, show n ≠ 20 by omega, Nat.mod_eq_of_lt (show n + 1 < 256 by omega)]
      · rcases Nat.lt_or_ge n 21 with h21 | h21
        · have hn : n = 20 := by omega
          subst hn
          decide
        · rcases Nat.lt_or_ge n 22 with h22 | h22
          · have hn : n = 21 := by omega
            subst hn
            decide
          · rw [heldState_high n (by omega), heldState_high (n + 1) (by omega)]
            by_cases hr : (n - 22) % 5 + 1 ≥ 5
            · simp [buttonStep, hr]
              omega
            · simp [buttonStep, hr, Nat.mod_eq_of_lt (show (n - 22) % 5 + 1 + 1 < 256 by omega)]
              omega

theorem runHeld_eq (n : Nat) : runHeld n = heldState n := by
  induction n with
  | zero => rfl
  | succ n ih =>
    show (buttonStep (runHeld n) true).1 = heldState (n + 1)
    rw [ih]
    exact buttonStep_heldState n

/-- Emission during a held poll, from the closed-form state. -/
theorem buttonStep_heldEmit (n : Nat) :
    (buttonStep (heldState n) true).2 =
      if 21 ≤ n ∧ (n - 21) % 5 = 0 then some BEvent.rep else none := by
  rcases Nat.lt_or_ge n 9 with h8 | h8
  · rw [heldState_low n (by omega)]
    simp [buttonStep, show ¬(21 ≤ n ∧ (n - 21) % 5 = 0) by omega]
    split_ifs <;> rfl
  · rcases Nat.lt_or_ge n 21 with h20 | h20
    · rw [heldState_mid n (by omega) (by omega)]
      simp [buttonStep, show ¬(21 ≤ n ∧ (n - 21) % 5 = 0) by omega]
      split_ifs <;> rfl
    · rcases Nat.lt_or_ge n 22 with h21 | h21
      · have hn : n = 21 := by omega
        subst hn
        decide
      · rw [heldState_high n (by omega)]
        by_cases hr : (n - 22) % 5 + 1 ≥ 5
        · simp [buttonStep, hr, show 21 ≤ n ∧ (n - 21) % 5 = 0 by omega]
        · simp [buttonStep, hr, show ¬(21 ≤ n ∧ (n - 21) % 5 = 0) by omega]

/-- Release event, from the closed-form state. -/
theorem buttonStep_release (n : Nat) :
    (buttonStep (heldState n) false).2 =
      if n ≤ 8 then some BEvent.short else if n ≤ 20 then some BEvent.long else none := by
  rcases Nat.lt_or_ge n 9 with h8 | h8
  · rw [heldState_low n (by omega), if_pos (by omega : n ≤ 8)]
    simp [buttonStep]
  · rcases Nat.lt_or_ge n 21 with h20 | h20
    · rw [heldState_mid n (by omega) (by omega), if_neg (by omega : ¬(n ≤ 8)),
        if_pos (by omega : n ≤ 20)]
      simp [buttonStep]
    · rcases Nat.lt_or_ge n 22 with h21 | h21
      · have hn : n = 21 := by omega
        subst hn
        decide
      · rw [heldState_high n (by omega), if_neg (by omega : ¬(n ≤ 8)),
          if_neg (by omega : ¬(n ≤ 20))]
        simp [buttonStep]

/-- C4 counterexample: releasing after exactly 8 held polls still emits a
short event (the claim says 8 held ticks already give a long event), and
neither the 20th nor the 21st held poll emits any event (the claim says a
long event is emitted immediately at tick 20; the first emission in
repeating mode is a repeat event at the 22nd held poll). -/
theorem input_classifier_counterexample :
    (buttonStep (runHeld 8) false).2 = some BEvent.short ∧
      (buttonStep (runHeld 19) true).2 = none ∧
      (buttonStep (runHeld 20) true).2 = none ∧
      (buttonStep (runHeld 21) true).2 = some BEvent.rep := by
  decide

/-- C4 amended: after the press is latched, releasing after n held polls
emits one short event when n ≤ 8, one long event when 9 ≤ n ≤ 20, and
nothing once the repeating mode was entered (n ≥ 21); while held, a
repeat event is emitted exactly at held polls 22, 27, 32, ... (every 5
polls from the 22nd on) and never anything else. -/
theorem input_classifier_amended (n : Nat) :
    (buttonStep (runHeld n) false).2 =
        (if n ≤ 8 then some BEvent.short else if n ≤ 20 then some BEvent.long else none) ∧
      (buttonStep (runHeld n) true).2 =
        (if 21 ≤ n ∧ (n - 21) % 5 = 0 then some BEvent.rep else none) := by
  rw [runHeld_eq]
  exact ⟨buttonStep_release n, buttonStep_heldEmit n⟩

/-!  ## EEPROM persistence (saveToEEPROM / restoreFromEEPROM / boot check)

The EEPROM is a byte-addressed store.  AVR structs have no padding, so
the fixed layout is: marker at 0; lamps[0..2] at 1, 6, 11 (sizeof LAMP
= 5); buse at 16 (sizeof BUSE = 6); brume at 22 (sizeof EXTRAS = 23);
bulles at 45. -/

def Eeprom : Type := Nat → Nat

def putBytes (e : Eeprom) (a : Nat) (bs : List Nat) : Eeprom :=
  fun i => if a ≤ i ∧ i < a + bs.length then bs.getD (i - a) 0 else e i

def getTIME (e : Eeprom) (a : Nat) : TIME := ⟨e a, e (a + 1)⟩

def getLAMP (e : Eeprom) (a : Nat) : LAMP := ⟨getTIME e a, getTIME e (a + 2), e (a + 4)⟩

def getBUSE (e : Eeprom) (a : Nat) : BUSE :=
  ⟨e a, getTIME e (a + 1), getTIME e (a + 3), e (a + 5)⟩

def getEXTRAS (e : Eeprom) (a : Nat) : EXTRAS :=
  ⟨e a, e (a + 1),
    [getTIME e (a + 2), getTIME e (a + 4), getTIME e (a + 6), getTIME e (a + 8),
      getTIME e (a + 10), getTIME e (a + 12), getTIME e (a + 14), getTIME e (a + 16),
      getTIME e (a + 18), getTIME e (a + 20)],
    e (a + 22)⟩

def serTIME (t : TIME) : List Nat := [t.hours % 256, t.minutes % 256]

def serLAMP (l : LAMP) : List Nat := serTIME l.onH ++ serTIME l.offH ++ [l.active % 256]

def serBUSE (b : BUSE) : List Nat :=
  b.tOn % 256 :: (serTIME b.startH ++ serTIME b.stopH ++ [b.active % 256])

def serEXTRAS (x : EXTRAS) : List Nat :=
  x.nbr % 256 :: x.tOn % 256 ::
    (((List.range 10).map (fun i => serTIME (x.times.getD i zeroTIME))).flatten ++
      [x.active % 256])

/-- The per-record validation of restoreFromEEPROM: a lamp with an
enabled byte other than 0/1 is disabled, its times kept. -/
def validLAMP (l : LAMP) : LAMP := if l.active > 1 then { l with active := 0 } else l

/-- Validation of the buse record: a bad enabled byte or tOn over 200
disables the pump and zeroes tOn, keeping the window times. -/
def validBUSE (b : BUSE) : BUSE :=
  if b.active > 1 ∨ b.tOn > 200 then { b with active := 0, tOn := 0 } else b

/-- Validation of a multi-event record: a bad enabled byte, count over 10
or tOn over 200 disables it and zeroes count and tOn, keeping times. -/
def validEXTRAS (x : EXTRAS) : EXTRAS :=
  if x.active > 1 ∨ x.nbr > 10 ∨ x.tOn > 200 then { x with active := 0, nbr := 0, tOn := 0 }
  else x

/-- restoreFromEEPROM: deserialize every record at its fixed address and
validate each one independently. -/
def restoreFromEEPROM (e : Eeprom) : Config :=
  { lamps := [validLAMP (getLAMP e 1), validLAMP (getLAMP e 6), validLAMP (getLAMP e 11)],
    buse := validBUSE (getBUSE e 16),
    brume := validEXTRAS (getEXTRAS e 22),
    bulles := validEXTRAS (getEXTRAS e 45) }

/-- saveToEEPROM: marker byte 2 at address 0, then lamps, buse and brume
records; the final statement of the source reads the bulles record from
EEPROM into RAM (EEPROM.get where the others are EEPROM.put), so the
returned pair carries both the new EEPROM image and the (clobbered)
in-memory configuration; the menu is left at m_setup. -/
def saveToEEPROM (e : Eeprom) (c : Config) : Eeprom × Config × Nat :=
  let e1 := putBytes e 0 [2]
  let e2 := putBytes e1 1 (serLAMP (c.lamps.getD 0 zeroLAMP))
  let e3 := putBytes e2 6 (serLAMP (c.lamps.getD 1 zeroLAMP))
  let e4 := putBytes e3 11 (serLAMP (c.lamps.getD 2 zeroLAMP))
  let e5 := putBytes e4 16 (serBUSE c.buse)
  let e6 := putBytes e5 22 (serEXTRAS c.brume)
  (e6, { c with bulles := getEXTRAS e6 45 }, m_setup)

/-- The configuration after the seeding assignments of setup() on the
zero-initialized globals: lamp 1 gets 08:00 to 22:00 (inactive), the
pump gets tOn 5 and window 08:00 to 21:00 (inactive). -/
def seedDefaults (c : Config) : Config :=
  { c with
      lamps := c.lamps.set 1 { c.lamps.getD 1 zeroLAMP with onH := ⟨8, 0⟩, offH := ⟨22, 0⟩ },
      buse := { c.buse with tOn := 5, startH := ⟨8, 0⟩, stopH := ⟨21, 0⟩ } }

def zeroConfig : Config :=
  ⟨List.replicate 3 zeroLAMP, ⟨0, ⟨0, 0⟩, ⟨0, 0⟩, 0⟩, zeroEXTRAS, zeroEXTRAS⟩

/-- The boot-time branch of setup(): seed the defaults, then read the
marker byte; on mismatch keep the seeded store and enter the setup menu,
on match deserialize the full configuration and start with the menu off. -/
def bootSetup (e : Eeprom) : Config × Nat :=
  let c := seedDefaults zeroConfig
  if e 0 ≠ 2 then (c, m_setup) else (restoreFromEEPROM e, m_off)

/-- The seeded default configuration written out explicitly. -/
def seededConfig : Config :=
  ⟨[zeroLAMP, ⟨⟨8, 0⟩, ⟨22, 0⟩, 0⟩, zeroLAMP], ⟨5, ⟨8, 0⟩, ⟨21, 0⟩, 0⟩, zeroEXTRAS, zeroEXTRAS⟩

def zeroEeprom : Eeprom := fun i => 0 * i

/-- An in-bounds configuration used as the round-trip test vector. -/
def cfgRT : Config :=
  ⟨[⟨⟨8, 0⟩, ⟨22, 0⟩, 1⟩, ⟨⟨9, 30⟩, ⟨21, 15⟩, 1⟩, ⟨⟨0, 0⟩, ⟨0, 0⟩, 0⟩],
    ⟨5, ⟨8, 0⟩, ⟨21, 0⟩, 1⟩,
    ⟨2, 10, ⟨9, 0⟩ :: ⟨15, 30⟩ :: List.replicate 8 ⟨0, 0⟩, 1⟩,
    ⟨1, 3, ⟨12, 0⟩ :: List.replicate 9 ⟨0, 0⟩, 1⟩⟩

/-- C2: the save-then-load round trip fails for the bulles record.  With
a previously blank EEPROM and an in-bounds configuration, the lamp, pump
and brume records do round-trip bit-for-bit, but the stored bulles
record is never written (the source calls EEPROM.get instead of
EEPROM.put there), so the reload returns a zeroed bulles record, and the
save itself already clobbers the in-memory bulles record. -/
theorem eeprom_roundtrip_fails :
    (restoreFromEEPROM (saveToEEPROM zeroEeprom cfgRT).1).lamps = cfgRT.lamps ∧
      (restoreFromEEPROM (saveToEEPROM zeroEeprom cfgRT).1).buse = cfgRT.buse ∧
      (restoreFromEEPROM (saveToEEPROM zeroEeprom cfgRT).1).brume = cfgRT.brume ∧
      (restoreFromEEPROM (saveToEEPROM zeroEeprom cfgRT).1).bulles ≠ cfgRT.bulles ∧
      (saveToEEPROM zeroEeprom cfgRT).2.1.bulles ≠ cfgRT.bulles := by
  decide

/-- C8: at boot, a mismatched marker byte keeps the seeded default
configuration (nothing is read from storage) and enters the setup menu;
a matching marker deserializes the full configuration from storage and
starts with the menu off. -/
theorem boot_marker (e : Eeprom) :
    bootSetup e = if e 0 = 2 then (restoreFromEEPROM e, m_off) else (seededConfig, m_setup) := by
  unfold bootSetup
  by_cases h : e 0 = 2
  · simp [h]
  · simp only [h, if_neg, if_pos (show e 0 ≠ 2 from h), ite_false]
    have : seedDefaults zeroConfig = seededConfig := by decide
    rw [this]

/-- An EEPROM image whose pump record has enabled byte 7 and stored
duration 5, everything else blank. -/
def eBadFlag : Eeprom := fun i => if i = 21 then 7 else if i = 16 then 5 else 0

/-- C6 counterexample: loading a pump record with enabled byte 7 and
stored duration 5 disables the pump but also zeroes the duration, so the
duration field is NOT left unchanged as the claim states. -/
theorem restore_invalid_flag_counterexample :
    eBadFlag 16 = 5 ∧
      (restoreFromEEPROM eBadFlag).buse.active = 0 ∧
      (restoreFromEEPROM eBadFlag).buse.tOn = 0 := by
  decide

/-- Helper: a lamp record deserialization only reads its own 5 bytes. -/
theorem getLAMP_congr (e e2 : Eeprom) (a : Nat) (h : ∀ i, a ≤ i → i < a + 5 → e i = e2 i) :
    getLAMP e a = getLAMP e2 a := by
  unfold getLAMP getTIME
  rw [h a (by omega) (by omega), h (a + 1) (by omega) (by omega),
    h (a + 2) (by omega) (by omega), h (a + 2 + 1) (by omega) (by omega),
    h (a + 4) (by omega) (by omega)]

/-- Helper: a multi-event record deserialization only reads its own 23
bytes. -/
theorem getEXTRAS_congr (e e2 : Eeprom) (a : Nat) (h : ∀ i, a ≤ i → i < a + 23 → e i = e2 i) :
    getEXTRAS e a = getEXTRAS e2 a := by
  unfold getEXTRAS getTIME
  rw [h a (by omega) (by omega), h (a + 1) (by omega) (by omega),
    h (a + 2) (by omega) (by omega), h (a + 2 + 1) (by omega) (by omega),
    h (a + 4) (by omega) (by omega), h (a + 4 + 1) (by omega) (by omega),
    h (a + 6) (by omega) (by omega), h (a + 6 + 1) (by omega) (by omega),
    h (a + 8) (by omega) (by omega), h (a + 8 + 1) (by omega) (by omega),
    h (a + 10) (by omega) (by omega), h (a + 10 + 1) (by omega) (by omega),
    h (a + 12) (by omega) (by omega), h (a + 12 + 1) (by omega) (by omega),
    h (a + 14) (by omega) (by omega), h (a + 14 + 1) (by omega) (by omega),
    h (a + 16) (by omega) (by omega), h (a + 16 + 1) (by omega) (by omega),
    h (a + 18) (by omega) (by omega), h (a + 18 + 1) (by omega) (by omega),
    h (a + 20) (by omega) (by omega), h (a + 20 + 1) (by omega) (by omega),
    h (a + 22) (by omega) (by omega)]

/-- C6 amended: a persisted record whose enabled byte is neither 0 nor 1
is marked disabled by the load; a lamp record keeps its two times, while
the pump record additionally gets its duration zeroed and a multi-event
record gets duration and count zeroed, both keeping their stored times;
and bytes of the corrupted record (here the pump enabled byte at address
21) have no influence on any other restored record. -/
theorem restore_invalid_flag (e : Eeprom) :
    (e 5 > 1 → (restoreFromEEPROM e).lamps.getD 0 zeroLAMP = ⟨getTIME e 1, getTIME e 3, 0⟩) ∧
      (e 21 > 1 → (restoreFromEEPROM e).buse = ⟨0, getTIME e 17, getTIME e 19, 0⟩) ∧
      (e 44 > 1 → (restoreFromEEPROM e).brume = ⟨0, 0, (getEXTRAS e 22).times, 0⟩) ∧
      (∀ e2 : Eeprom, (∀ i, i ≠ 21 → e i = e2 i) →
        (restoreFromEEPROM e).lamps = (restoreFromEEPROM e2).lamps ∧
          (restoreFromEEPROM e).brume = (restoreFromEEPROM e2).brume ∧
          (restoreFromEEPROM e).bulles = (restoreFromEEPROM e2).bulles) := by
  refine ⟨?_, ?_, ?_, ?_⟩
  · intro h
    simp only [restoreFromEEPROM, getLAMP, validLAMP]
    rw [if_pos h]
    rfl
  · intro h
    simp only [restoreFromEEPROM, getBUSE, validBUSE]
    rw [if_pos (Or.inl h)]
  · intro h
    simp only [restoreFromEEPROM, validEXTRAS]
    rw [if_pos (Or.inl (show (getEXTRAS e 22).active > 1 from h))]
  · intro e2 hs
    refine ⟨?_, ?_, ?_⟩
    · simp only [restoreFromEEPROM]
      rw [getLAMP_congr e e2 1 (fun i h1 h2 => hs i (by omega)),
        getLAMP_congr e e2 6 (fun i h1 h2 => hs i (by omega)),
        getLAMP_congr e e2 11 (fun i h1 h2 => hs i (by omega))]
    · simp only [restoreFromEEPROM]
      rw [getEXTRAS_congr e e2 22 (fun i h1 h2 => hs i (by omega))]
    · simp only [restoreFromEEPROM]
      rw [getEXTRAS_congr e e2 45 (fun i h1 h2 => hs i (by omega))]

/-- C6 witness: on the concrete corrupted image the pump comes back
disabled with zeroed duration and its (blank) window times intact. -/
theorem restore_invalid_flag_witness :
    (restoreFromEEPROM eBadFlag).buse = ⟨0, ⟨0, 0⟩, ⟨0, 0⟩, 0⟩ :=
  (restore_invalid_flag eBadFlag).2.1 (by decide)

/-!  ## Menu state machine (shared time editing and the extra devices)

The mutable globals a menu invocation touches: menu, subMenu, HorM,
choosed, timeSelected, setupVal, nbr_setup and the press slot. -/

structure MenuState where
  menu : Nat
  subMenu : Nat
  HorM : Nat
  choosed : Nat
  timeSelected : TIME
  setupVal : Nat
  nbr_setup : Nat
  press : Nat
deriving DecidableEq, Repr

/-- hourSelection: the shared time-editing sub-flow.  HorM = 0 edits the
hour (wrap 23 to 0), HorM = 1 edits the minute (+1 wrapping past 59 to
0, +5 on a repeat press wrapping by -60); a short press of button 1
while on the hour moves focus to the minute and is consumed, while on
the minute it is left for the calling menu to commit.  uint8_t
arithmetic on the minute is modelled with % 256. -/
def hourSelection (st : MenuState) : MenuState :=
  if st.HorM = 0 then
    if st.press = p_bt2_s ∨ st.press = p_bt2_r then
      { st with
          timeSelected :=
            { st.timeSelected with
                hours := if st.timeSelected.hours = 23 then 0 else (st.timeSelected.hours + 1) % 256 },
          press := p_none }
    else if st.press = p_bt1_s then { st with HorM := st.HorM + 1, press := p_none }
    else st
  else
    if st.press = p_bt2_s then
      { st with
          timeSelected :=
            { st.timeSelected with
                minutes :=
                  if (st.timeSelected.minutes + 1) % 256 > 59 then 0
                  else (st.timeSelected.minutes + 1) % 256 },
          press := p_none }
    else if st.press = p_bt2_r then
      { st with
          timeSelected :=
            { st.timeSelected with
                minutes :=
                  if (st.timeSelected.minutes + 5) % 256 > 59 then (st.timeSelected.minutes + 5) % 256 - 60
                  else (st.timeSelected.minutes + 5) % 256 },
          press := p_none }
    else st

/-- extra_menu: one invocation of the menu routine for a multi-event
device (brume or bulles), acting on the menu globals and the device
record.  An empty device entered at sub-state 0 jumps straight to the
duration edit (sub-state 3) with the scratch value preset to the stored
duration and the enumeration maximum set to 59. -/
def extra_menu (st0 : MenuState) (thing : EXTRAS) : MenuState × EXTRAS :=
  let st :=
    if thing.nbr = 0 ∧ st0.subMenu = 0 then
      { st0 with subMenu := 3, nbr_setup := 59, setupVal := thing.tOn }
    else st0
  if st.subMenu = 0 then
    let st := { st with nbr_setup := 1 }
    if st.press = p_bt2_s then
      ({ st with
          setupVal := (if st.setupVal = st.nbr_setup then 0 else st.setupVal + 1),
          press := p_none }, thing)
    else if st.press = p_bt1_s then
      ({ st with press := p_none, subMenu := st.subMenu + st.setupVal + 1 }, thing)
    else (st, thing)
  else if st.subMenu = 1 then
    let st := { st with nbr_setup := thing.nbr }
    let st :=
      if st.press = p_bt2_s then
        { st with
            setupVal := (if st.setupVal = st.nbr_setup then 0 else st.setupVal + 1),
            press := p_none }
      else st
    if st.press = p_bt1_s then
      if st.setupVal = st.nbr_setup then
        ({ st with press := p_none, subMenu := st.subMenu + 2, setupVal := thing.tOn }, thing)
      else
        ({ st with
            press := p_none,
            choosed := st.setupVal,
            subMenu := st.subMenu + 3,
            timeSelected := thing.times.getD st.setupVal zeroTIME }, thing)
    else (st, thing)
  else if st.subMenu = 2 then
    if thing.nbr < 10 then
      ({ st with choosed := thing.nbr, subMenu := st.subMenu + 3, timeSelected := ⟨8, 0⟩ },
        { thing with nbr := thing.nbr + 1 })
    else ({ st with subMenu := st.subMenu + 4 }, thing)
  else if st.subMenu = 3 then
    if st.press = p_bt2_s ∨ st.press = p_bt2_r then
      ({ st with
          setupVal := (if st.setupVal = st.nbr_setup then 0 else st.setupVal + 1),
          press := p_none }, thing)
    else if st.press = p_bt2_l then ({ st with press := p_none, setupVal := 0 }, thing)
    else if st.press = p_bt1_s then
      ({ st with press := p_none, subMenu := st.subMenu + 1 }, { thing with tOn := st.setupVal })
    else if st.press = p_bt1_l then
      ({ st with press := p_none, setupVal := 0, menu := m_setup }, thing)
    else (st, thing)
  else if st.subMenu = 4 then
    if st.press = p_bt2_s then
      ({ st with press := p_none }, { thing with active := (if thing.active ≠ 0 then 0 else 1) })
    else if st.press = p_bt1_s then
      let st := { st with press := p_none, timeSelected := thing.times.getD st.choosed zeroTIME }
      if thing.active ≠ 0 ∧ thing.nbr = 0 then ({ st with subMenu := 2 }, thing)
      else ({ st with menu := m_setup, subMenu := 0, choosed := 0, setupVal := 0 }, thing)
    else if st.press = p_bt1_l then ({ st with press := p_none, menu := m_setup }, thing)
    else (st, thing)
  else if st.subMenu = 5 then
    let st := hourSelection st
    if st.press = p_bt1_s then
      ({ st with
          press := p_none,
          HorM := 0,
          menu := m_setup,
          subMenu := 0,
          choosed := 0,
          setupVal := 0 },
        { thing with times := thing.times.set st.choosed st.timeSelected })
    else if st.press = p_bt1_l then
      (if st.HorM ≠ 0 then { st with press := p_none, HorM := 0 }
        else { st with press := p_none, subMenu := st.subMenu - 1 }, thing)
    else (st, thing)
  else if st.subMenu = 6 then
    if st.press = p_bt1_s ∨ st.press = p_bt2_s then
      ({ st with
          press := p_none,
          HorM := 0,
          menu := m_setup,
          subMenu := 0,
          choosed := 0,
          setupVal := 0 }, thing)
    else (st, thing)
  else (st, thing)

/-- C7: confirming the add choice on a multi-event device already
holding 10 triggers leaves the record (in particular its count)
unchanged and reaches the storage-full sub-state 6 on the next menu
cycle; from there any press other than a short press changes nothing,
and a short press of either button is the only exit, returning to the
top-level setup menu. -/
theorem extra_menu_capacity (m horm ch ns : Nat) (ts : TIME) (thing : EXTRAS)
    (hn : thing.nbr = 10) :
    extra_menu ⟨m, 0, horm, ch, ts, 1, ns, p_bt1_s⟩ thing =
        (⟨m, 2, horm, ch, ts, 1, 1, p_none⟩, thing) ∧
      extra_menu ⟨m, 2, horm, ch, ts, 1, 1, p_none⟩ thing =
        (⟨m, 6, horm, ch, ts, 1, 1, p_none⟩, thing) ∧
      (∀ p, p ≠ p_bt1_s → p ≠ p_bt2_s →
        extra_menu ⟨m, 6, horm, ch, ts, 1, 1, p⟩ thing = (⟨m, 6, horm, ch, ts, 1, 1, p⟩, thing)) ∧
      (∀ p, p = p_bt1_s ∨ p = p_bt2_s →
        extra_menu ⟨m, 6, horm, ch, ts, 1, 1, p⟩ thing =
          (⟨m_setup, 0, 0, 0, ts, 0, 1, p_none⟩, thing)) := by
  refine ⟨?_, ?_, ?_, ?_⟩
  · simp [extra_menu, hn, p_bt1_s, p_bt2_s, p_none]
  · simp [extra_menu, hn, p_bt1_s, p_bt2_s, p_none]
  · intro p hp1 hp2
    have hq1 : p ≠ 1 := hp1
    have hq2 : p ≠ 4 := hp2
    simp [extra_menu, hourSelection, hn, p_bt1_s, p_bt2_s, p_bt2_r, p_bt2_l, p_none, hq1, hq2]
  · intro p hp
    rcases hp with hp | hp <;>
      simp [extra_menu, hn, hp, p_bt1_s, p_bt2_s, p_none, m_setup]

def xThing10 : EXTRAS := ⟨10, 5, List.replicate 10 ⟨8, 0⟩, 1⟩

/-- C7 witness: on a concrete full device, the short-press exit of the
storage-full sub-state returns to the setup menu with the record still
at count 10. -/
theorem extra_menu_capacity_witness :
    extra_menu ⟨4, 6, 0, 0, ⟨0, 0⟩, 1, 1, p_bt2_s⟩ xThing10 =
      (⟨m_setup, 0, 0, 0, ⟨0, 0⟩, 0, 1, p_none⟩, xThing10) :=
  (extra_menu_capacity 4 0 0 3 ⟨0, 0⟩ xThing10 rfl).2.2.2 p_bt2_s (Or.inr rfl)

/-- C9: the shared time-editing sub-flow keeps the edited time in range
for every press event, and a Clock Keeper tick keeps the global time in
range (given an in-range RTC minute), both by wraparound arithmetic. -/
theorem timeOfDay_wraparound (st : MenuState) (sec rtc : Nat) (t : TIME)
    (h1 : st.timeSelected.hours ≤ 23) (h2 : st.timeSelected.minutes ≤ 59)
    (h3 : t.hours ≤ 23) (h4 : t.minutes ≤ 59) (h5 : rtc ≤ 59) :
    ((hourSelection st).timeSelected.hours ≤ 23 ∧
        (hourSelection st).timeSelected.minutes ≤ 59) ∧
      ((timeTick sec t rtc).2.hours ≤ 23 ∧ (timeTick sec t rtc).2.minutes ≤ 59) := by
  constructor
  · unfold hourSelection
    split_ifs <;> simp_all <;> omega
  · unfold timeTick timeCorrect timeInc
    split_ifs <;> simp_all <;> omega

/-- C9 witness: a concrete in-range state stays in range, here a repeat
press on the minute at 58 wrapping to 3 and a tick at 23:59:59 wrapping
to 00:00. -/
theorem timeOfDay_wraparound_witness :
    (((hourSelection ⟨4, 5, 1, 0, ⟨23, 58⟩, 0, 59, p_bt2_r⟩).timeSelected.hours ≤ 23 ∧
        (hourSelection ⟨4, 5, 1, 0, ⟨23, 58⟩, 0, 59, p_bt2_r⟩).timeSelected.minutes ≤ 59) ∧
      ((timeTick 59 ⟨23, 59⟩ 0).2.hours ≤ 23 ∧ (timeTick 59 ⟨23, 59⟩ 0).2.minutes ≤ 59)) ∧
      (hourSelection ⟨4, 5, 1, 0, ⟨23, 58⟩, 0, 59, p_bt2_r⟩).timeSelected = ⟨23, 3⟩ ∧
      (timeTick 59 ⟨23, 59⟩ 0).2 = ⟨0, 0⟩ :=
  ⟨timeOfDay_wraparound ⟨4, 5, 1, 0, ⟨23, 58⟩, 0, 59, p_bt2_r⟩ 59 0 ⟨23, 59⟩
      (by decide) (by decide) (by decide) (by decide) (by decide),
    by decide, by decide⟩

/-- C10: a multi-event device menu entered at sub-state 0 with an empty
device (count 0) skips the add-vs-edit choice and lands directly in the
duration edit (sub-state 3) with the scratch value preset to the stored
duration and its enumeration maximum set to 59; committing a duration d
moves to the active toggle, toggling activates the device, and
committing with the device active and count still 0 jumps to the append
sub-state, which allocates slot 0 (count becomes 1) and moves to the
trigger-time edit (sub-state 5) seeded with 08:00. -/
theorem extra_menu_empty_device (m horm ch sv ns d : Nat) (ts ts2 : TIME) (thing : EXTRAS)
    (hn : thing.nbr = 0) (ha : thing.active = 0) :
    extra_menu ⟨m, 0, horm, ch, ts, sv, ns, p_none⟩ thing =
        (⟨m, 3, horm, ch, ts, thing.tOn, 59, p_none⟩, thing) ∧
      extra_menu ⟨m, 3, horm, ch, ts, d, 59, p_bt1_s⟩ thing =
        (⟨m, 4, horm, ch, ts, d, 59, p_none⟩, { thing with tOn := d }) ∧
      extra_menu ⟨m, 4, horm, ch, ts, d, 59, p_bt2_s⟩ { thing with tOn := d } =
        (⟨m, 4, horm, ch, ts, d, 59, p_none⟩, { thing with tOn := d, active := 1 }) ∧
      extra_menu ⟨m, 4, horm, ch, ts, d, 59, p_bt1_s⟩ { thing with tOn := d, active := 1 } =
        (⟨m, 2, horm, ch, thing.times.getD ch zeroTIME, d, 59, p_none⟩,
          { thing with tOn := d, active := 1 }) ∧
      extra_menu ⟨m, 2, horm, ch, ts2, d, 59, p_none⟩ { thing with tOn := d, active := 1 } =
        (⟨m, 5, horm, 0, ⟨8, 0⟩, d, 59, p_none⟩, { thing with tOn := d, active := 1, nbr := 1 }) := by
  refine ⟨?_, ?_, ?_, ?_, ?_⟩ <;>
    simp [extra_menu, hn, ha, p_bt1_s, p_bt2_s, p_bt2_r, p_bt2_l, p_bt1_l, p_none]

def yThing : EXTRAS := ⟨0, 7, List.replicate 10 ⟨0, 0⟩, 0⟩

/-- C10 witness: entering the menu on a concrete empty device jumps
straight to the duration edit preset with its stored duration 7 and
enumeration maximum 59. -/
theorem extra_menu_empty_device_witness :
    extra_menu ⟨4, 0, 0, 2, ⟨5, 5⟩, 0, 6, p_none⟩ yThing =
      (⟨4, 3, 0, 2, ⟨5, 5⟩, 7, 59, p_none⟩, yThing) :=
  (extra_menu_empty_device 4 0 2 0 6 7 ⟨5, 5⟩ ⟨0, 0⟩ yThing rfl rfl).1

end Palud
